import Mathlib

set_option maxHeartbeats 1000000

namespace Mcts

/-- Python runtime error kinds raised by the code under analysis.
`nonTermination` is the out-of-fuel sentinel used to embed unbounded
`while` loops. -/
inductive PyErr : Type where
  | typeError
  | keyError
  | valueError
  | zeroDivisionError
  | indexError
  | assertionError
  | nonTermination
  deriving DecidableEq

/-- Modelled from the spec: the external `Board` interface of section 6 — the
class `p2_t3.Board` is imported by `mcts_vanilla.py` but its file is not among
the sources.  All five operations are ordinary methods taking the state:
`current_player(state)`, `legal_actions(state)`, `next_state(state, action)`,
`is_ended(state)`, and `points_values(state)` (the outcome mapping, defined
only on terminal states, where outcome 1 marks a win for that identity).
The two-parameter type of `next_state` is corroborated inside
`mcts_vanilla.py` itself by the calls on lines 38 and 78. -/
structure Board (A S : Type) where
  current_player : S → Nat
  legal_actions : S → List A
  next_state : S → A → S
  is_ended : S → Bool
  points_values : S → Option (Nat → Int)

/-- Modelled from the spec: `mcts_node.MCTSNode` (sections 3 and 4.1) — the
module `mcts_node` is imported by `mcts_vanilla.py` but its file is not among
the sources.  A node stores the action that produced it, the mapping
action → child node (in insertion order), the untried actions, the win
accumulator and the visit count.  The mutable upward `parent` reference
cannot be stored inside an inductive value; parent chains are modelled
separately as the list of the statistics of a node followed by those of its
ancestors (see `backpropagate`). -/
inductive MCTSNode (A : Type) : Type where
  | mk (parent_action : Option A) (child_nodes : List (A × MCTSNode A))
      (untried_actions : List A) (wins : Int) (visits : Nat)

def MCTSNode.parent_action {A : Type} : MCTSNode A → Option A
  | .mk pa _ _ _ _ => pa

def MCTSNode.child_nodes {A : Type} : MCTSNode A → List (A × MCTSNode A)
  | .mk _ c _ _ _ => c

def MCTSNode.untried_actions {A : Type} : MCTSNode A → List A
  | .mk _ _ u _ _ => u

def MCTSNode.wins {A : Type} : MCTSNode A → Int
  | .mk _ _ _ w _ => w

def MCTSNode.visits {A : Type} : MCTSNode A → Nat
  | .mk _ _ _ _ v => v

/-- Modelled from the spec: `MCTSNode(parent=p, parent_action=a,
action_list=l)` builds a node with empty child mapping,
`untried_actions = l`, zero wins and zero visits (section 4.1); the `parent`
argument is the upward reference, represented outside the inductive value. -/
def MCTSNode.create {A : Type} (parent_action : Option A) (action_list : List A) : MCTSNode A :=
  .mk parent_action [] action_list 0 0

/-- mcts_vanilla.py line 7: the default iteration budget. -/
def num_nodes : Nat := 1000

/-- mcts_vanilla.py line 8: the UCB exploration weight. -/
noncomputable def exploration_factor : ℝ := 2

/-- Truth value of a bound-method object used as a condition: on lines 26 and
77 the attribute reference `board.is_ended` is not called, and in Python a
bound method object is always truthy, so `not board.is_ended` is always
`False`. -/
def method_truthy : Bool := true

/-- Truth value of `bot_identity == board.current_player` (lines 31 and 34):
the right-hand side is an uncalled bound method, and an `int` never compares
equal to a method object, so the comparison is always `False`. -/
def int_eq_method : Bool := false

/-- Dictionary read `d[k]` on the action → child mapping: `none` models a
missing key (where Python raises `KeyError`). -/
def assocFind {A B : Type} [DecidableEq A] (k : A) : List (A × B) → Option B
  | [] => none
  | (a, b) :: rest => if a = k then some b else assocFind k rest

/-- Dynamic result of `expand_leaf`: line 56 returns the bare value `False`
(the no-expansion sentinel) and line 63 would return the pair
`(child, new_state)`. -/
inductive ExpandResult (A S : Type) : Type where
  | sentinelFalse
  | expanded (child : MCTSNode A) (new_state : S)

/-- mcts_vanilla.py lines 42-63.  On a terminal state the `False` sentinel is
returned (lines 55-56).  Otherwise `random.choice(node.untried_actions)`
(line 58, the random index given by `pick`) raises `IndexError` on an empty
sequence; then line 59 evaluates `board.next_state(action)` — `next_state`
takes a state and an action, so this one-argument call raises `TypeError`.
Lines 60-63 (child creation, registration in `child_nodes`, returning the
pair) are therefore unreachable; note also that no line of the function
removes the chosen action from `untried_actions`. -/
def expand_leaf {A S : Type} (node : MCTSNode A) (board : Board A S) (state : S)
    (pick : Nat) : Except PyErr (ExpandResult A S) :=
  if board.is_ended state then .ok .sentinelFalse
  else
    match node.untried_actions with
    | [] => .error .indexError
    | a :: rest =>
      let _action := (a :: rest).getD (pick % (a :: rest).length) a
      .error .typeError

/-- mcts_vanilla.py lines 66-80.  The loop guard `while not board.is_ended`
(line 77) tests the truthiness of the uncalled bound method, which is always
true, so the guard is `False` at the first check and the input state is
returned unchanged.  The body (line 78) is embedded for completeness:
`random.choice` over the legal actions (index from `chooser`, `IndexError`
on an empty sequence) followed by a transition.  The `fuel` argument bounds
the unbounded Python loop. -/
def rollout {A S : Type} : Board A S → S → (Nat → Nat) → Nat → Except PyErr S
  | _board, state, _chooser, 0 =>
    if !method_truthy then .error .nonTermination else .ok state
  | board, state, chooser, fuel + 1 =>
    if !method_truthy then
      match board.legal_actions state with
      | [] => .error .indexError
      | a :: rest =>
        rollout board
          (board.next_state state ((a :: rest).getD (chooser fuel % (a :: rest).length) a))
          chooser fuel
    else .ok state

/-- Statistics (wins, visits) of one node, used to model a parent chain. -/
structure NodeStats : Type where
  wins : Int
  visits : Nat

/-- mcts_vanilla.py lines 82-93.  `backpropagate(node, won)` updates the node
and recurses on `node.parent` with `not won`; `if node:` ends the recursion
at the `None` parent of the root.  The chain argument is the list of the
statistics of the starting node followed by those of its ancestors up to the
root, which is exactly the sequence of nodes the Python recursion touches. -/
def backpropagate : List NodeStats → Bool → List NodeStats
  | [], _ => []
  | node :: parents, won =>
    ⟨node.wins + (if won then 1 else -1), node.visits + 1⟩ :: backpropagate parents (!won)

/-- The per-child summand of lines 111-117:
`child.wins / child.visits + exploration_estimate_top / sqrt(child.visits)`. -/
noncomputable def win_ratio {A : Type} (exploration_estimate_top : ℝ) (child : MCTSNode A) : ℝ :=
  (child.wins : ℝ) / (child.visits : ℝ) + exploration_estimate_top / Real.sqrt (child.visits : ℝ)

/-- Loop of lines 109-121: fold over `node.child_nodes.values()` keeping the
running maximum, which starts at 0 (line 105); a child with zero visits makes
`child.wins / child.visits` raise `ZeroDivisionError`. -/
noncomputable def ucb_fold {A : Type} (exploration_estimate_top : ℝ) :
    List (A × MCTSNode A) → ℝ → Except PyErr ℝ
  | [], max_win_r => .ok max_win_r
  | (_, child) :: rest, max_win_r =>
    if child.visits = 0 then .error .zeroDivisionError
    else
      ucb_fold exploration_estimate_top rest
        (if win_ratio exploration_estimate_top child > max_win_r then
          win_ratio exploration_estimate_top child
        else max_win_r)

/-- mcts_vanilla.py lines 95-123.  `math.log(0)` raises `ValueError` (line
108), so a node with zero visits aborts; otherwise the running maximum over
the children (started at 0) is returned as is when `is_opponent` is true and
as one minus it otherwise (line 123). -/
noncomputable def ucb {A : Type} (node : MCTSNode A) (is_opponent : Bool) : Except PyErr ℝ :=
  if node.visits = 0 then .error .valueError
  else
    match ucb_fold (exploration_factor * Real.sqrt (Real.log (node.visits : ℝ)))
        node.child_nodes 0 with
    | .error e => .error e
    | .ok max_win_r => .ok (if is_opponent then max_win_r else 1 - max_win_r)

/-- Loop of lines 135-142 with accumulator `(max_ucb, best_action)` starting
at `(0, None)`: each action still in `root_node.untried_actions` is looked up
in `root_node.child_nodes` (`KeyError` when absent) and its child is scored
with `ucb(child, True)`; a score is kept only when it strictly exceeds the
running maximum. -/
noncomputable def get_best_action_go {A : Type} [DecidableEq A] (root_node : MCTSNode A) :
    List A → ℝ → Option A → Except PyErr (Option A)
  | [], _, best_action => .ok best_action
  | action :: rest, max_ucb, best_action =>
    match assocFind action root_node.child_nodes with
    | none => .error .keyError
    | some child =>
      match ucb child true with
      | .error e => .error e
      | .ok child_ucb =>
        if child_ucb > max_ucb then get_best_action_go root_node rest child_ucb (some action)
        else get_best_action_go root_node rest max_ucb best_action

/-- mcts_vanilla.py lines 125-144. -/
noncomputable def get_best_action {A : Type} [DecidableEq A] (root_node : MCTSNode A) :
    Except PyErr (Option A) :=
  get_best_action_go root_node root_node.untried_actions 0 none

/-- mcts_vanilla.py lines 146-150: `assert outcome is not None` raises
`AssertionError` when `board.points_values(state)` is `None`; otherwise the
result is whether the outcome recorded for the identity of the bot equals
1. -/
def is_win {A S : Type} (board : Board A S) (state : S) (identity_of_bot : Nat) :
    Except PyErr Bool :=
  match board.points_values state with
  | none => .error .assertionError
  | some outcome => .ok (outcome identity_of_bot == 1)

/-- Dynamic result of `traverse_nodes`: line 40 returns the pair
`(node, state)`, while line 28 would forward whatever `expand_leaf`
returns. -/
inductive TravReturn (A S : Type) : Type where
  | node_state (node : MCTSNode A) (state : S)
  | expanded (r : ExpandResult A S)

/-- List comprehension of line 31: one `(ucb, action)` pair per action in
`node.untried_actions`, looking the action up in `node.child_nodes`
(`KeyError` when absent) and scoring it with
`is_opponent = (bot_identity == board.current_player)`, a comparison that is
always `False` (`int_eq_method`). -/
noncomputable def ucbs_list {A : Type} [DecidableEq A] (node : MCTSNode A) :
    List A → Except PyErr (List (ℝ × A))
  | [] => .ok []
  | action :: rest =>
    match assocFind action node.child_nodes with
    | none => .error .keyError
    | some child =>
      match ucb child int_eq_method with
      | .error e => .error e
      | .ok u =>
        match ucbs_list node rest with
        | .error e => .error e
        | .ok tail => .ok ((u, action) :: tail)

/-- Python `max` over a list of `(float, action)` tuples: lexicographic, the
first maximal element is kept; an empty sequence raises `ValueError`. -/
noncomputable def py_tuple_max {A : Type} [LinearOrder A] :
    List (ℝ × A) → Except PyErr (ℝ × A)
  | [] => .error .valueError
  | p :: rest =>
    .ok (rest.foldl
      (fun acc q => if acc.1 < q.1 ∨ (acc.1 = q.1 ∧ acc.2 < q.2) then q else acc) p)

/-- Python `min` over a list of `(float, action)` tuples: lexicographic, the
first minimal element is kept; an empty sequence raises `ValueError`. -/
noncomputable def py_tuple_min {A : Type} [LinearOrder A] :
    List (ℝ × A) → Except PyErr (ℝ × A)
  | [] => .error .valueError
  | p :: rest =>
    .ok (rest.foldl
      (fun acc q => if q.1 < acc.1 ∨ (q.1 = acc.1 ∧ q.2 < acc.2) then q else acc) p)

/-- mcts_vanilla.py lines 10-40.  The loop guard `while not board.is_ended`
(line 26) tests the truthiness of the uncalled bound method `board.is_ended`
— the state is never passed to it — so the guard is `False` at the first
check, the loop body (lines 27-38) is unreachable, and the call returns the
pair `(node, state)` immediately.  The body is embedded for completeness: it
would hand a childless node to `expand_leaf` (line 28, with index 0 standing
for the unreachable random choice inside it), score every untried action
(line 31), pick `max` when `bot_identity == board.current_player` — always
`False`, see `int_eq_method` — and `min` otherwise (line 34), and descend
(lines 37-38).  The `fuel` argument bounds the unbounded Python loop. -/
noncomputable def traverse_nodes {A S : Type} [LinearOrder A] [DecidableEq A] :
    MCTSNode A → Board A S → S → Nat → Nat → Except PyErr (TravReturn A S)
  | node, _board, state, _bot_identity, 0 =>
    if !method_truthy then .error .nonTermination else .ok (.node_state node state)
  | node, board, state, bot_identity, fuel + 1 =>
    if !method_truthy then
      if node.child_nodes.isEmpty then
        (expand_leaf node board state 0).map TravReturn.expanded
      else
        match ucbs_list node node.untried_actions with
        | .error e => .error e
        | .ok ucbs =>
          match (if int_eq_method then py_tuple_max ucbs else py_tuple_min ucbs) with
          | .error e => .error e
          | .ok best =>
            match assocFind best.2 node.child_nodes with
            | none => .error .keyError
            | some child =>
              traverse_nodes child board (board.next_state state best.2) bot_identity fuel
    else .ok (.node_state node state)

/-- Line 171: `node = traverse_nodes(root_node)` — `traverse_nodes` has four
required positional parameters (line 10), so this one-argument call raises
`TypeError` before the body of the function can run. -/
def traverse_nodes_unary_call {A : Type} (_root_node : MCTSNode A) :
    Except PyErr (MCTSNode A) :=
  .error .typeError

/-- One iteration of the loop of lines 165-174: after `state = current_state`
and `node = root_node`, the call on line 171 raises `TypeError`; the calls to
`rollout`, `is_win` and `backpropagate` (lines 172-174) are unreachable. -/
def think_iteration {A S : Type} (_board : Board A S) (_current_state : S)
    (_bot_identity : Nat) (root_node : MCTSNode A) : Except PyErr Unit :=
  match traverse_nodes_unary_call root_node with
  | .error e => .error e
  | .ok _ => .ok ()

/-- The `for _ in range(n)` loop over `think_iteration`; a raised error
aborts the remaining iterations.  No tree state is threaded through the
iterations because every iteration raises before mutating anything. -/
def think_loop {A S : Type} (board : Board A S) (current_state : S)
    (bot_identity : Nat) (root_node : MCTSNode A) : Nat → Except PyErr Unit
  | 0 => .ok ()
  | n + 1 =>
    match think_iteration board current_state bot_identity root_node with
    | .error e => .error e
    | .ok _ => think_loop board current_state bot_identity root_node n

/-- mcts_vanilla.py lines 152-181, with the iteration count as an explicit
argument (the module-level default is `num_nodes`).  `bot_identity` is the
player to move at `current_state` (line 162); the root is created from the
legal actions at `current_state` (line 163); the loop raises on its first
iteration whenever `n ≥ 1`, and only for `n = 0` does control reach
`get_best_action` (line 178).  The `print` on line 180 is an ignored side
effect. -/
noncomputable def think {A S : Type} [DecidableEq A] (board : Board A S)
    (current_state : S) (n : Nat) : Except PyErr (Option A) :=
  let bot_identity := board.current_player current_state
  let root_node : MCTSNode A := MCTSNode.create none (board.legal_actions current_state)
  match think_loop board current_state bot_identity root_node n with
  | .error e => .error e
  | .ok _ => get_best_action root_node

/-- The running maximum that `ucb` computes when no error occurs: the fold of
`max` over the `win_ratio` values of the children, started at the initial
accumulator 0 of line 105. -/
noncomputable def max_from_zero {A : Type} (node : MCTSNode A) : ℝ :=
  (node.child_nodes.map fun p =>
    win_ratio (exploration_factor * Real.sqrt (Real.log (node.visits : ℝ))) p.2).foldl max 0

/-- The accounting property of spec section 8.1 for one node, relative to the
legal actions at the state of the node: set sizes add up and every legal
action sits in exactly one of the untried list and the child mapping. -/
def node_accounting {A : Type} [DecidableEq A] (node : MCTSNode A) (legal : List A) : Prop :=
  node.untried_actions.length + node.child_nodes.length = legal.length ∧
  ∀ a ∈ legal,
    (a ∈ node.untried_actions ∧ assocFind a node.child_nodes = none) ∨
    (a ∉ node.untried_actions ∧ assocFind a node.child_nodes ≠ none)

/-- A single-move game: at state 0 the only legal action is 0, leading to the
terminal state 1, a win for player 1 (the scenario of spec section 8, item
6). -/
def win_board : Board Nat Nat where
  current_player := fun _ => 1
  legal_actions := fun s => if s = 0 then [0] else []
  next_state := fun _ _ => 1
  is_ended := fun s => s == 1
  points_values := fun s => if s = 1 then some (fun i => if i = 1 then 1 else 0) else none

/-- A two-move game: at state 0 the actions 0 and 1 lead to the terminal
states 1 (win for player 1) and 2 (loss for player 1). -/
def two_move_board : Board Nat Nat where
  current_player := fun _ => 1
  legal_actions := fun s => if s = 0 then [0, 1] else []
  next_state := fun _ a => a + 1
  is_ended := fun s => decide (0 < s)
  points_values := fun s =>
    if s = 1 then some (fun i => if i = 1 then 1 else 0)
    else if s = 2 then some (fun i => if i = 1 then 0 else 1)
    else none

/-- A child with one visit, no wins and no children: its `ucb` score is 0. -/
def gba_child0 : MCTSNode Nat := .mk (some 0) [] [] 0 1

/-- A grandchild with one win in one visit. -/
def gba_grand : MCTSNode Nat := .mk (some 0) [] [] 1 1

/-- A child with one visit holding `gba_grand`: its `ucb` score is 1. -/
def gba_child1 : MCTSNode Nat := .mk (some 1) [(0, gba_grand)] [] 1 1

/-- A hand-built root used to exercise `get_best_action` in isolation: both
actions are still listed as untried while also having registered children,
which is the shape `get_best_action` expects (it looks untried actions up in
`child_nodes`). -/
def gba_root : MCTSNode Nat := .mk none [(0, gba_child0), (1, gba_child1)] [0, 1] 0 2

/-- A child carrying a negative win accumulator: one visit, wins −1. -/
def neg_child : MCTSNode Nat := .mk (some 0) [] [] (-1) 1

/-- A node with one visit whose only child is `neg_child`. -/
def neg_node : MCTSNode Nat := .mk none [(0, neg_child)] [] 0 1

/-- A fixed random source always choosing index 0. -/
def zero_chooser : Nat → Nat := fun _ => 0

theorem think_errors {A S : Type} [DecidableEq A] (board : Board A S) (state : S) (n : Nat) :
    think board state (n + 1) = .error .typeError := rfl

theorem keep_if_gt_eq_max (r m : ℝ) : (if r > m then r else m) = max m r := by
  rcases le_or_lt r m with h | h
  · rw [if_neg (not_lt.mpr h), max_eq_left h]
  · rw [if_pos h, max_eq_right (le_of_lt h)]

theorem ucb_fold_eq_max {A : Type} (top : ℝ) (l : List (A × MCTSNode A)) (m : ℝ)
    (hc : ∀ p ∈ l, (p.2).visits ≠ 0) :
    ucb_fold top l m = .ok ((l.map fun p => win_ratio top p.2).foldl max m) := by
  induction l generalizing m with
  | nil => rfl
  | cons p rest ih =>
    obtain ⟨a, child⟩ := p
    have hv : child.visits ≠ 0 := hc (a, child) (List.mem_cons_self _ _)
    have hrest : ∀ q ∈ rest, (q.2).visits ≠ 0 := fun q hq => hc q (List.mem_cons_of_mem _ hq)
    rw [ucb_fold, if_neg hv, keep_if_gt_eq_max, ih _ hrest]
    rfl

/-- Claim C1: the spec requires that on a board whose root has exactly one
legal action leading to a terminal winning state, `think` returns that action
for any budget of at least one iteration.  On `win_board` the premise holds
— one legal action, its successor is terminal and a win for the bot — yet
`think` raises `TypeError`, because line 171 calls `traverse_nodes` with one
argument instead of four. -/
theorem think_single_move_raises :
    win_board.legal_actions 0 = [0] ∧
    win_board.is_ended (win_board.next_state 0 0) = true ∧
    is_win win_board (win_board.next_state 0 0) 1 = .ok true ∧
    think win_board 0 num_nodes = .error .typeError :=
  ⟨rfl, rfl, rfl, think_errors win_board 0 999⟩

/-- Claim C2: `backpropagate` as implemented does walk the whole parent chain
up to the root inclusive, incrementing every visit count on the chain exactly
once; but no call to `think` ever completes its iterations — the first
iteration raises `TypeError` — so the visit count of the root never becomes
N. -/
theorem backpropagate_path_and_think_never_completes :
    (∀ (chain : List NodeStats) (won : Bool),
        (backpropagate chain won).map NodeStats.visits = chain.map fun s => s.visits + 1) ∧
    think win_board 0 1 = .error .typeError := by
  refine ⟨?_, think_errors win_board 0 0⟩
  intro chain
  induction chain with
  | nil => intro won; rfl
  | cons node rest ih => intro won; simp [backpropagate, ih]

/-- Claim C3: the rollout loop guard (line 77) tests the truthiness of the
uncalled method `board.is_ended`, so the loop never runs and `rollout`
returns its input state unchanged whatever the board, the state, the random
source and the fuel; in particular for the non-terminal state 0 of
`two_move_board` the returned state is not terminal, contradicting the
claim. -/
theorem rollout_returns_input_state :
    (∀ (A S : Type) (board : Board A S) (state : S) (chooser : Nat → Nat) (fuel : Nat),
        rollout board state chooser fuel = .ok state) ∧
    two_move_board.is_ended 0 = false ∧
    rollout two_move_board 0 zero_chooser num_nodes = .ok 0 := by
  refine ⟨?_, rfl, rfl⟩
  intro A S board state chooser fuel
  cases fuel <;> rfl

/-- Claim C4: on a terminal state `expand_leaf` does return the `False`
sentinel, but on a non-terminal state with an untried action it raises
`TypeError` — line 59 calls `board.next_state(action)` without the state
argument — so no child is ever created or registered, and the chosen action
is never removed from the untried set (the function has no removal statement
at all). -/
theorem expand_leaf_sentinel_and_type_error :
    two_move_board.is_ended 0 = false ∧
    (MCTSNode.mk none [] [0] 0 0 : MCTSNode Nat).untried_actions = [0] ∧
    expand_leaf (MCTSNode.mk none [] [0] 0 0) two_move_board 0 0 = .error .typeError ∧
    expand_leaf (MCTSNode.mk none [] [0] 0 0) two_move_board 1 0 = .ok .sentinelFalse :=
  ⟨rfl, rfl, rfl, rfl⟩

/-- Claim C5: the selection loop guard (line 26) tests the truthiness of the
uncalled bound method `board.is_ended`, so whatever the node, board, state,
identity and fuel, `traverse_nodes` performs no iteration and returns the
input node and state unchanged: no UCB is computed, no max/min choice is
made, and no descent happens. -/
theorem traverse_nodes_never_iterates {A S : Type} [LinearOrder A] [DecidableEq A]
    (node : MCTSNode A) (board : Board A S) (state : S) (bot_identity fuel : Nat) :
    traverse_nodes node board state bot_identity fuel = .ok (.node_state node state) := by
  cases fuel <;> rfl

/-- Claim C6: in isolation `get_best_action` does scan the untried actions of
the root and return the action whose child scores highest under
`ucb(child, True)` — on `gba_root`, action 1 with score 1 beats action 0
with score 0 — but `think` raises `TypeError` in its first iteration and
never reaches this selection, so it never returns the selected action. -/
theorem get_best_action_selects_but_think_raises :
    get_best_action gba_root = .ok (some 1) ∧
    think two_move_board 0 num_nodes = .error .typeError := by
  refine ⟨?_, think_errors two_move_board 0 999⟩
  norm_num [get_best_action, get_best_action_go, gba_root, gba_child0, gba_child1, gba_grand,
    assocFind, ucb, ucb_fold, win_ratio, MCTSNode.visits, MCTSNode.child_nodes, MCTSNode.wins,
    MCTSNode.untried_actions, Real.log_one, Real.sqrt_one, Real.sqrt_zero]

/-- Counterexample to claim C7: `neg_node` has one visit and a single child
with one visit and wins −1, so the hypotheses of the claim hold; the maximum
over the children of the claimed summand is the summand of that single
child, −1, but `ucb` returns 0 because its running maximum starts at the
accumulator 0 of line 105. -/
theorem ucb_differs_from_pure_max :
    neg_node.visits ≠ 0 ∧ (∀ p ∈ neg_node.child_nodes, (p.2).visits ≠ 0) ∧
    ucb neg_node true ≠
      .ok (win_ratio (exploration_factor * Real.sqrt (Real.log (neg_node.visits : ℝ)))
        neg_child) := by
  refine ⟨by decide, by decide, ?_⟩
  norm_num [ucb, ucb_fold, win_ratio, neg_node, neg_child, MCTSNode.visits,
    MCTSNode.child_nodes, MCTSNode.wins, Real.log_one, Real.sqrt_one, Real.sqrt_zero]

/-- Claim C7 as amended: when the node and all its children have at least one
visit, `ucb` returns, for `is_opponent = True`, the fold of `max` over the
`win_ratio` values of the children started at 0 — that is, the claimed
maximum clamped below by the initial accumulator 0 — and one minus that
value for `is_opponent = False`. -/
theorem ucb_is_zero_floored_max {A : Type} (node : MCTSNode A) (is_opponent : Bool)
    (h0 : node.visits ≠ 0) (hc : ∀ p ∈ node.child_nodes, (p.2).visits ≠ 0) :
    ucb node is_opponent =
      .ok (if is_opponent then max_from_zero node else 1 - max_from_zero node) := by
  rw [ucb, if_neg h0, ucb_fold_eq_max _ _ _ hc]
  rfl

/-- Witness for the amended claim C7 at the concrete node `gba_root`, whose
visit counts are all positive. -/
theorem ucb_is_zero_floored_max_witness :
    ucb gba_root true = .ok (if true then max_from_zero gba_root else 1 - max_from_zero gba_root) :=
  ucb_is_zero_floored_max gba_root true (by decide) (by decide)

/-- Claim C8: a node is created with `untried_actions` equal to the legal
actions at its state and with no children, so the accounting invariant holds
at creation; and `expand_leaf` can never produce an expanded child — it
returns the sentinel on terminal states and raises otherwise — so no call to
it moves any action between the two sets and every node of the tree keeps
the invariant after any number of expansion attempts. -/
theorem node_accounting_holds {A S : Type} [DecidableEq A] (board : Board A S) (state s2 : S)
    (node child : MCTSNode A) (pick : Nat) (ns : S) :
    node_accounting (MCTSNode.create (A := A) none (board.legal_actions state))
      (board.legal_actions state) ∧
    expand_leaf node board s2 pick ≠ .ok (.expanded child ns) := by
  constructor
  · constructor
    · simp [MCTSNode.create, MCTSNode.untried_actions, MCTSNode.child_nodes]
    · intro a ha
      exact Or.inl ⟨by simpa [MCTSNode.create, MCTSNode.untried_actions] using ha,
        by simp [MCTSNode.create, MCTSNode.child_nodes, assocFind]⟩
  · intro h
    cases hE : board.is_ended s2 with
    | true => simp [expand_leaf, hE] at h
    | false =>
      cases hu : node.untried_actions with
      | nil => simp [expand_leaf, hE, hu] at h
      | cons a rest => simp [expand_leaf, hE, hu] at h

/-- Witness for claim C8 at a concrete board, state and attempted
expansion. -/
theorem node_accounting_holds_witness :
    node_accounting (MCTSNode.create (A := Nat) none (win_board.legal_actions 0))
      (win_board.legal_actions 0) ∧
    expand_leaf (MCTSNode.mk none [] [0] 0 0) win_board 0 0 ≠
      .ok (.expanded (MCTSNode.mk none [] [] 0 0) 1) :=
  node_accounting_holds win_board 0 0 (MCTSNode.mk none [] [0] 0 0)
    (MCTSNode.mk none [] [] 0 0) 0 1

/-- Claim C9: `is_win` raises the assertion exactly when the outcome mapping
of the board is `None` — the characterisation of a non-terminal state used by
the claim — and on a defined outcome it returns whether the outcome recorded
for the identity of the bot equals 1. -/
theorem is_win_characterization {A S : Type} (board : Board A S) (state : S) (bot : Nat) :
    (is_win board state bot = .error .assertionError ↔ board.points_values state = none) ∧
    ∀ f, board.points_values state = some f → is_win board state bot = .ok (f bot == 1) := by
  constructor
  · constructor
    · intro h
      cases hp : board.points_values state with
      | none => rfl
      | some f => simp [is_win, hp] at h
    · intro h
      simp [is_win, h]
  · intro f hf
    simp [is_win, hf]

/-- Witness for claim C9: on `win_board`, state 0 is non-terminal and makes
the assertion fail, while state 1 is a terminal win for player 1. -/
theorem is_win_characterization_witness :
    is_win win_board 0 1 = .error .assertionError ∧ is_win win_board 1 1 = .ok true := by
  constructor
  · exact (is_win_characterization win_board 0 1).1.mpr rfl
  · have h := (is_win_characterization win_board 1 1).2 (fun i => if i = 1 then 1 else 0) rfl
    simpa using h

/-- Claim C10: for every board, state and iteration budget of at least one,
`think` raises `TypeError` during its first iteration — line 171 passes one
argument to the four-parameter `traverse_nodes` — and therefore never
completes an iteration and never returns an action. -/
theorem think_raises_type_error {A S : Type} [DecidableEq A] (board : Board A S) (state : S)
    (n : Nat) (h : 1 ≤ n) :
    think board state n = .error .typeError := by
  obtain ⟨m, rfl⟩ : ∃ m, n = m + 1 := ⟨n - 1, (Nat.succ_pred_eq_of_pos h).symm⟩
  exact think_errors board state m

/-- Witness for claim C10 at a concrete board and the default budget. -/
theorem think_raises_type_error_witness :
    1 ≤ num_nodes ∧ think two_move_board 1 num_nodes = .error .typeError :=
  ⟨by decide, think_raises_type_error two_move_board 1 num_nodes (by decide)⟩

end Mcts
